import Mathlib

/-!
Verification of the Ethereum load-testing tool (`run.py`) against its
natural-language specification.  The Python source is shallowly embedded:
each method of `EthereumLoadTester` that the claims mention becomes a Lean
function over an explicit state, with the outcomes of the external RPC
calls supplied as explicit parameters (an `Option`/`Bool` oracle: `none` /
`false` models the call raising an exception).  Time is modelled by exact
rationals (seconds), sets by duplicate-free lists, and Prometheus metrics
by a record of counters and gauges.
-/

/-- The Prometheus metrics state of the process: the counters
`eth_transactions_sent_total`, `eth_transactions_success_total`,
`eth_transactions_failed_total`, the gauges `eth_transactions_pending`,
`eth_connection_status`, `eth_gas_price_gwei`, `eth_block_number`, the
labelled gauge `eth_account_balance_wei` (an association list keyed by
address) and the histogram `eth_transaction_duration_seconds` (its list of
observations). -/
structure Metrics where
  txSentTotal : Nat
  txSuccessTotal : Nat
  txFailedTotal : Nat
  txPending : Nat
  connectionStatus : Nat
  gasPriceGwei : Rat
  blockNumber : Nat
  balances : List (Nat × Nat)
  txDuration : List Rat
deriving Repr, DecidableEq

/-- The mutable state of an `EthereumLoadTester`: the metrics registry and
`self.pending_txs` (a set of transaction-hash strings, kept as a list). -/
structure TesterState where
  metrics : Metrics
  pending : List String
deriving Repr, DecidableEq

/-- All-zero metrics, as at process start. -/
def initialMetrics : Metrics :=
  { txSentTotal := 0, txSuccessTotal := 0, txFailedTotal := 0,
    txPending := 0, connectionStatus := 0, gasPriceGwei := 0,
    blockNumber := 0, balances := [], txDuration := [] }

/-- Tester state at start: zero metrics, empty pending set. -/
def initialState : TesterState := { metrics := initialMetrics, pending := [] }

/-- `_check_connection`: probes `w3.eth.block_number` (outcome supplied as
`blockProbe`; `none` means the call raised).  On success it sets the
connectivity gauge to 1 and returns `true`; on any failure it logs a
warning, sets the gauge to 0 and returns `false`.  It never propagates the
exception. -/
def check_connection (blockProbe : Option Nat) (m : Metrics) : Bool × Metrics :=
  match blockProbe with
  | some _ => (true, { m with connectionStatus := 1 })
  | none => (false, { m with connectionStatus := 0 })

/-- Outcome of one startup probe attempt in `_wait_for_connection`:
`ok` models `w3.is_connected()` returning true and the follow-up
`chain_id` read succeeding; `notConnected` models `is_connected()`
returning false; `err` models either call raising. -/
inductive ProbeOutcome
  | ok
  | notConnected
  | err
deriving Repr, DecidableEq

/-- The `for attempt in range(max_retries)` loop of `_wait_for_connection`.
`attempt` is the loop index, `remaining` the iterations left
(`max_retries - attempt`), `sleeps` the number of `time.sleep(retry_delay)`
calls performed so far.  Returns `(some i, sleeps)` when attempt `i`
succeeded, `(none, sleeps)` when the loop ran out of attempts (the code
then raises its connection-failure exception). -/
def wait_loop (probe : Nat → ProbeOutcome) (maxRetries : Nat) :
    Nat → Nat → Nat → Option Nat × Nat
  | _attempt, 0, sleeps => (none, sleeps)
  | attempt, remaining + 1, sleeps =>
    match probe attempt with
    | .ok => (some attempt, sleeps)
    | _ =>
      if attempt < maxRetries - 1 then
        wait_loop probe maxRetries (attempt + 1) remaining (sleeps + 1)
      else
        wait_loop probe maxRetries (attempt + 1) remaining sleeps

/-- `_wait_for_connection(max_retries, retry_delay)`: runs the probe loop
from attempt 0.  The total time slept is `retry_delay` multiplied by the
returned sleep count. -/
def wait_for_connection (probe : Nat → ProbeOutcome) (maxRetries : Nat) :
    Option Nat × Nat :=
  wait_loop probe maxRetries 0 maxRetries 0

/-- The RPC/signing outcomes one call of `send_transaction` can observe,
in source order: the `_check_connection` probe
(`w3.eth.block_number`), `get_transaction_count(addr, 'pending')`,
`w3.eth.gas_price`, `w3.eth.chain_id`, `sign_transaction`, the
raw-transaction attribute lookup, and `send_raw_transaction` (returning
the transaction hash's hex string).  `none` / `false` models the step
raising an exception. -/
structure RpcOutcomes where
  blockProbe : Option Nat
  nonce : Option Nat
  gasPrice : Option Nat
  chainId : Option Nat
  signOk : Bool
  rawOk : Bool
  submit : Option String
deriving Repr, DecidableEq

/-- The `except` branch of `send_transaction`: whatever the failure
(connection lost, nonce/gas/chain query error, signing error, missing raw
attribute, rejected submission — nonce collisions differ only in log
level), it increments `tx_sent_total` and `tx_failed_total` and returns
`None`; the pending set is untouched. -/
def sendExceptPath (s : TesterState) : Option String × TesterState :=
  (none,
    { s with metrics :=
      { s.metrics with
        txSentTotal := s.metrics.txSentTotal + 1,
        txFailedTotal := s.metrics.txFailedTotal + 1 } })

/-- `send_transaction(from_account, to_address)` up to the point where the
background receipt thread is spawned (the thread itself is
`wait_for_receipt`).  On a successful broadcast it increments
`tx_sent_total`, adds the hash's hex string to `pending_txs` (a Python
set: adding an existing element is a no-op), sets the `tx_pending` gauge
to the set's size and returns the hash; any raising step lands in
`sendExceptPath`. -/
def send_transaction (o : RpcOutcomes) (s : TesterState) :
    Option String × TesterState :=
  let (connOk, m1) := check_connection o.blockProbe s.metrics
  let s1 : TesterState := { s with metrics := m1 }
  if connOk = false then sendExceptPath s1
  else match o.nonce with
  | none => sendExceptPath s1
  | some _ =>
    match o.gasPrice with
    | none => sendExceptPath s1
    | some _ =>
      match o.chainId with
      | none => sendExceptPath s1
      | some _ =>
        if o.signOk = false then sendExceptPath s1
        else if o.rawOk = false then sendExceptPath s1
        else match o.submit with
        | none => sendExceptPath s1
        | some h =>
          let pending' := if h ∈ s1.pending then s1.pending else s1.pending ++ [h]
          (some h,
            { s1 with
              pending := pending',
              metrics :=
                { s1.metrics with
                  txSentTotal := s1.metrics.txSentTotal + 1,
                  txPending := pending'.length } })

/-- `true` exactly when some step of `send_transaction` before a
successful broadcast fails, i.e. when the call takes the `except` branch. -/
def submitFails (o : RpcOutcomes) : Bool :=
  o.blockProbe.isNone || o.nonce.isNone || o.gasPrice.isNone ||
    o.chainId.isNone || !o.signOk || !o.rawOk || o.submit.isNone

/-- Outcome of `w3.eth.wait_for_transaction_receipt(tx_hash, timeout=120)`
inside `_wait_for_receipt`: `receipt status` is a receipt with the given
`status` field; `error` is the call raising (timeout or query error). -/
inductive ReceiptOutcome
  | receipt (status : Nat)
  | error
deriving Repr, DecidableEq

/-- The pending-set cleanup at the end of `_wait_for_receipt`'s `try`
block: if the hash is in `pending_txs`, remove it and set the
`tx_pending` gauge to the new size; otherwise do nothing. -/
def removeFromPending (h : String) (s : TesterState) : TesterState :=
  if h ∈ s.pending then
    let pending' := s.pending.erase h
    { s with
      pending := pending',
      metrics := { s.metrics with txPending := pending'.length } }
  else s

/-- `_wait_for_receipt(tx_hash, start_time)`, the body of one confirmation
tracker thread.  On a receipt with status 1 it increments
`tx_success_total` and observes the elapsed `duration`, on any other
status it increments `tx_failed_total`; in both cases it then runs the
pending-set cleanup.  If the receipt wait raises (timeout or query error)
the `except` branch only increments `tx_failed_total` — the cleanup in the
`try` block is skipped. -/
def wait_for_receipt (h : String) (r : ReceiptOutcome) (duration : Rat)
    (s : TesterState) : TesterState :=
  match r with
  | .receipt status =>
    let s1 : TesterState :=
      if status = 1 then
        { s with metrics :=
          { s.metrics with
            txSuccessTotal := s.metrics.txSuccessTotal + 1,
            txDuration := duration :: s.metrics.txDuration } }
      else
        { s with metrics :=
          { s.metrics with txFailedTotal := s.metrics.txFailedTotal + 1 } }
    removeFromPending h s1
  | .error =>
    { s with metrics :=
      { s.metrics with txFailedTotal := s.metrics.txFailedTotal + 1 } }

/-- `random.choice(self.accounts)` over a pool of account addresses,
driven by a stream value `n`: picks the element at index `n mod size`
(uniform once `n` is uniform; total on nonempty pools, defaulting to 0 on
the empty pool which the source never reaches). -/
def poolChoice (pool : List Nat) (n : Nat) : Nat :=
  pool.getD (n % pool.length) 0

/-- The receiver-retry loop of `send_batch`:
`while to_account.address == from_account.address: to_account =
random.choice(self.accounts)`.  `rand` is the stream of random draws,
`k` the index of the next draw, `fuel` bounds the number of iterations we
observe; `none` means the loop was still running after `fuel` draws. -/
def pickReceiverLoop (pool : List Nat) (rand : Nat → Nat) (sender : Nat) :
    Nat → Nat → Option Nat
  | _k, 0 => none
  | k, fuel + 1 =>
    let r := poolChoice pool (rand k)
    if r = sender then pickReceiverLoop pool rand sender (k + 1) fuel
    else some r

/-- One (sender, receiver) draw of `send_batch`: `from_account =
random.choice(accounts)`, then `to_account = random.choice(accounts)`
retried while it equals the sender.  `none` means the retry loop had not
terminated after `fuel` receiver draws. -/
def pick_pair (pool : List Nat) (rand : Nat → Nat) (fuel : Nat) :
    Option (Nat × Nat) :=
  match pickReceiverLoop pool rand (poolChoice pool (rand 0)) 1 fuel with
  | some r => some (poolChoice pool (rand 0), r)
  | none => none

/-- The collision-avoidance sleep of `send_batch` (times in seconds, as
exact rationals): with `lastUsed` the sender's entry in
`account_last_used` (if any) and `now` the current `time.time()`, the
code sleeps `0.1 - (now - lastUsed)` when the sender was used within the
last 100 ms, and does not sleep otherwise. -/
def collision_sleep (lastUsed : Option Rat) (now : Rat) : Rat :=
  match lastUsed with
  | none => 0
  | some last => if now - last < 1/10 then 1/10 - (now - last) else 0

/-- The time at which `send_transaction` is dispatched after the
collision-avoidance check performed at time `now`: the sleep (if any)
elapses first. -/
def dispatch_time (lastUsed : Option Rat) (now : Rat) : Rat :=
  now + collision_sleep lastUsed now

/-- The `while self.running:` loop of `run`, counting completed rounds
(`batch_count`).  Each iteration runs one batch and then breaks when
`not continuous and batch_count >= total_batches`.  `fuel` bounds the
number of iterations we observe: `some c` means the loop broke of its own
accord after `c` rounds, `none` that it was still running after `fuel`
rounds. -/
def run_loop (continuous : Bool) (totalBatches : Nat) :
    Nat → Nat → Option Nat
  | _count, 0 => none
  | count, fuel + 1 =>
    let count' := count + 1
    if continuous = false ∧ totalBatches ≤ count' then some count'
    else run_loop continuous totalBatches count' fuel

/-- The scheduler loop of `run` started with `batch_count = 0`. -/
def run_model (continuous : Bool) (totalBatches : Nat) (fuel : Nat) :
    Option Nat :=
  run_loop continuous totalBatches 0 fuel

/-- Set the labelled balance gauge for address `a` to `v` (replace the
entry if the label exists, append otherwise). -/
def setBalance (bs : List (Nat × Nat)) (a v : Nat) : List (Nat × Nat) :=
  match bs with
  | [] => [(a, v)]
  | (a', v') :: rest =>
    if a' = a then (a, v) :: rest else (a', v') :: setBalance rest a v

/-- `w3.from_wei(wei, 'gwei')`: division by 10^9 over the rationals. -/
def fromWeiGwei (wei : Nat) : Rat := (wei : Rat) / 1000000000

/-- The balance-update loop of `update_metrics`: for each account query
`get_balance` and set its labelled gauge; if a query raises (`none`), the
enclosing `except` stops the loop with the earlier updates retained. -/
def updateBalances (balanceOf : Nat → Option Nat) :
    List Nat → Metrics → Metrics
  | [], m => m
  | a :: rest, m =>
    match balanceOf a with
    | none => m
    | some v => updateBalances balanceOf rest { m with balances := setBalance m.balances a v }

/-- The RPC outcomes `update_metrics` can observe: the
`_check_connection` probe, `w3.eth.gas_price`, `w3.eth.block_number`, and
`get_balance` per address.  `none` models the call raising. -/
structure MetricsProbe where
  blockProbe : Option Nat
  gasPriceWei : Option Nat
  blockNum : Option Nat
  balanceOf : Nat → Option Nat

/-- `update_metrics()`: first `_check_connection`; if it reports
unhealthy, log and return at once.  Otherwise refresh the gas-price gauge
(in gwei), the block-number gauge, and every account's balance gauge; a
raising step lands in the `except` branch, which only logs, so the
updates made so far are retained. -/
def update_metrics (p : MetricsProbe) (accounts : List Nat) (m : Metrics) :
    Metrics :=
  match check_connection p.blockProbe m with
  | (false, m1) => m1
  | (true, m1) =>
    match p.gasPriceWei with
    | none => m1
    | some g =>
      let m2 := { m1 with gasPriceGwei := fromWeiGwei g }
      match p.blockNum with
      | none => m2
      | some b => updateBalances p.balanceOf accounts { m2 with blockNumber := b }

/-- One complete submission attempt together with the eventual fate of its
confirmation tracker: `send_transaction` under outcomes `o`, and — when
the broadcast succeeded — the spawned `wait_for_receipt` with receipt
outcome `r` and confirmation latency `d`.  Running the tracker to
completion right after the submission models the quiescent state in which
every spawned tracker has resolved. -/
def stepAttempt (s : TesterState) (a : RpcOutcomes × ReceiptOutcome × Rat) :
    TesterState :=
  match send_transaction a.1 s with
  | (some h, s') => wait_for_receipt h a.2.1 a.2.2 s'
  | (none, s') => s'

/-- A whole run's submission attempts, each tracked to resolution. -/
def runAttempts (s : TesterState)
    (l : List (RpcOutcomes × ReceiptOutcome × Rat)) : TesterState :=
  l.foldl stepAttempt s

/-- A nontrivial metrics state used to exercise frame conditions. -/
def exampleMetrics : Metrics :=
  { txSentTotal := 4, txSuccessTotal := 2, txFailedTotal := 1,
    txPending := 1, connectionStatus := 1, gasPriceGwei := 3/2,
    blockNumber := 17, balances := [(1, 50), (2, 60)], txDuration := [2] }

/-- C8: `_check_connection` never throws: every probe outcome yields a
boolean; the connectivity gauge is set to 1 exactly when it returns true
and to 0 exactly when it returns false, and any probe failure yields
`false`. -/
theorem C8_check_connection_gauge (blockProbe : Option Nat) (m : Metrics) :
    ((check_connection blockProbe m).2.connectionStatus = 1
        ↔ (check_connection blockProbe m).1 = true)
    ∧ ((check_connection blockProbe m).2.connectionStatus = 0
        ↔ (check_connection blockProbe m).1 = false)
    ∧ (blockProbe = none → (check_connection blockProbe m).1 = false) := by
  cases blockProbe <;> simp [check_connection]

/-- C10: when the probe at the start of `update_metrics` fails, the
function returns at once: the gas-price, block-height and balance gauges
keep their previous values and only the connectivity gauge, now 0, is
modified. -/
theorem C10_update_metrics_frame (p : MetricsProbe) (accounts : List Nat)
    (m : Metrics) (h : p.blockProbe = none) :
    update_metrics p accounts m = { m with connectionStatus := 0 } := by
  simp [update_metrics, check_connection, h]

/-- Witness for C10 at a concrete failing probe, account list and metrics
state. -/
theorem C10_update_metrics_frame_witness :
    update_metrics ⟨none, some 7, some 8, fun a => some a⟩ [1, 2] exampleMetrics
      = { exampleMetrics with connectionStatus := 0 } :=
  C10_update_metrics_frame ⟨none, some 7, some 8, fun a => some a⟩ [1, 2]
    exampleMetrics rfl

set_option maxRecDepth 4000 in
/-- C2 counterexample: on the one-address pool `[7]` the receiver-retry
loop of `send_batch` is still spinning after 100 random draws, and still
after 250: no `EmptyPool` (or any other) error is raised and no pair is
returned — the code loops, contradicting the claimed failure. -/
theorem C2_pool_of_one_loops_counterexample :
    pick_pair [7] (fun k => k) 100 = none
      ∧ pick_pair [7] (fun k => k) 250 = none := by
  constructor <;> decide

/-- Every receiver draw from a singleton pool returns its sole element, so
the retry loop against that element as sender never exits. -/
theorem pickReceiverLoop_singleton (a : Nat) (rand : Nat → Nat) :
    ∀ fuel k, pickReceiverLoop [a] rand a k fuel = none := by
  intro fuel
  induction fuel with
  | zero => intro k; rfl
  | succ n ih =>
    intro k
    simp [pickReceiverLoop, poolChoice, Nat.mod_one, ih]

/-- C2 amended: on a pool of size 1 the pair-drawing operation of
`send_batch` neither raises an error nor returns a pair — the receiver
retry loop never terminates (there is no `EmptyPool` error anywhere in the
code). -/
theorem C2_pool_of_one_never_returns (pool : List Nat) (rand : Nat → Nat)
    (fuel : Nat) (h : pool.length = 1) :
    pick_pair pool rand fuel = none := by
  match pool, h with
  | [a], _ =>
    simp [pick_pair, poolChoice, Nat.mod_one, pickReceiverLoop_singleton]

/-- Witness for the amended C2 at the concrete pool `[7]`. -/
theorem C2_pool_of_one_never_returns_witness :
    pick_pair [7] (fun k => k) 3 = none :=
  C2_pool_of_one_never_returns [7] (fun k => k) 3 rfl

/-- A receiver produced by the retry loop is never the sender: the loop
only exits at a draw that differs from the sender. -/
theorem pickReceiverLoop_ne_sender (pool : List Nat) (rand : Nat → Nat)
    (sender : Nat) :
    ∀ fuel k r, pickReceiverLoop pool rand sender k fuel = some r →
      r ≠ sender := by
  intro fuel
  induction fuel with
  | zero => intro k r h; exact absurd h (by simp [pickReceiverLoop])
  | succ n ih =>
    intro k r h
    by_cases hc : poolChoice pool (rand k) = sender
    · exact ih (k + 1) r (by simpa [pickReceiverLoop, hc] using h)
    · simp [pickReceiverLoop, hc] at h
      exact h ▸ hc

/-- C7: for any pool of size at least 2, whenever the pair draw of
`send_batch` produces a (sender, receiver) pair, the two are distinct — a
transaction is never sent from an identity to itself. -/
theorem C7_sender_ne_receiver (pool : List Nat) (rand : Nat → Nat)
    (fuel : Nat) (s r : Nat) (hpool : 2 ≤ pool.length)
    (h : pick_pair pool rand fuel = some (s, r)) : s ≠ r := by
  unfold pick_pair at h
  rcases hr : pickReceiverLoop pool rand (poolChoice pool (rand 0)) 1 fuel with _ | r'
  · rw [hr] at h; exact absurd h (by simp)
  · rw [hr] at h
    simp at h
    obtain ⟨hs, hrr⟩ := h
    subst hs; subst hrr
    exact (pickReceiverLoop_ne_sender pool rand _ fuel 1 r' hr).symm

/-- Witness for C7 on the pool `[0, 1]` with the identity draw stream. -/
theorem C7_sender_ne_receiver_witness :
    pick_pair [0, 1] (fun k => k) 5 = some (0, 1) ∧ (0 : Nat) ≠ 1 :=
  ⟨by decide,
    C7_sender_ne_receiver [0, 1] (fun k => k) 5 0 1 (by decide) (by decide)⟩

/-- C5: collision throttle.  If the previous submission of this sender
finished at `d1` and was recorded in `account_last_used` at `last`, and
the next attempt reaches the throttle check at `now`, then (i) whenever
less than 100 ms have passed the sleep is exactly the remainder of the
100 ms window, and (ii) the actual dispatch time of the second submission
is at least 100 ms after the first dispatch. -/
theorem C5_collision_throttle (d1 last now : Rat) (h1 : d1 ≤ last)
    (h2 : last ≤ now) :
    (now - last < 1/10 → collision_sleep (some last) now = 1/10 - (now - last))
    ∧ d1 + 1/10 ≤ dispatch_time (some last) now := by
  constructor
  · intro h
    simp only [collision_sleep]
    rw [if_pos h]
  · simp only [dispatch_time, collision_sleep]
    split <;> linarith

/-- Witness for C5: previous dispatch at 0 s, recorded at 0.02 s, next
check at 0.05 s — the second dispatch happens no earlier than 0.1 s. -/
theorem C5_collision_throttle_witness :
    (0 : Rat) + 1/10 ≤ dispatch_time (some (1/50)) (1/20) :=
  (C5_collision_throttle 0 (1/50) (1/20) (by norm_num) (by norm_num)).2

/-- C6 counterexample: a bounded run configured for 0 total batches still
executes one full round before the stop check fires, so the scheduler
stops after 1 round, not after the configured 0. -/
theorem C6_zero_batches_counterexample :
    run_model false 0 10 = some 1 ∧ (1 : Nat) ≠ 0 := by
  constructor
  · decide
  · decide

/-- From any round count strictly below the bound, a bounded loop with
enough fuel stops exactly when the bound is reached. -/
theorem run_loop_bounded_stops (total : Nat) :
    ∀ fuel count, count < total → total ≤ count + fuel →
      run_loop false total count fuel = some total := by
  intro fuel
  induction fuel with
  | zero => intro count hlt hle; omega
  | succ n ih =>
    intro count hlt hle
    simp only [run_loop]
    split
    · rename_i hc
      have heq : count + 1 = total := by omega
      rw [heq]
    · rename_i hc
      have h2 : ¬total ≤ count + 1 := fun hle1 => hc ⟨by trivial, hle1⟩
      exact ih (count + 1) (by omega) (by omega)

/-- A continuous loop never takes the break: the stop condition is never
true, so it is still running whatever the fuel. -/
theorem run_loop_continuous_never_stops (total : Nat) :
    ∀ fuel count, run_loop true total count fuel = none := by
  intro fuel
  induction fuel with
  | zero => intro count; rfl
  | succ n ih =>
    intro count
    simp [run_loop, ih]

/-- C6 amended: with `continuous = false` and a total-batch bound of at
least 1, the scheduler loop stops of its own accord after exactly the
configured number of rounds (a bound of 0 still costs one round, per the
counterexample); with `continuous = true` it never stops of its own
accord, whatever the number of rounds observed. -/
theorem C6_bounded_run_terminates (total fuel : Nat) :
    (1 ≤ total → total ≤ fuel → run_model false total fuel = some total)
    ∧ run_model true total fuel = none := by
  constructor
  · intro h1 h2
    exact run_loop_bounded_stops total fuel 0 (by omega) (by omega)
  · exact run_loop_continuous_never_stops total fuel 0

/-- Witness for the amended C6: 2 configured batches, fuel 5 — the
bounded run stops after exactly 2 rounds and the continuous run is still
going. -/
theorem C6_bounded_run_terminates_witness :
    run_model false 2 5 = some 2 ∧ run_model true 2 5 = none :=
  ⟨(C6_bounded_run_terminates 2 5).1 (by decide) (by decide),
    (C6_bounded_run_terminates 2 5).2⟩

/-- C3: whenever any step of `send_transaction` before a successful
broadcast fails — connectivity probe, nonce query, gas price, chain id,
signing, raw-attribute lookup or the submission itself — the call returns
`None`, increments the sent and failed counters by exactly one each,
leaves the success counter alone, and leaves the pending set and its
gauge untouched. -/
theorem C3_submit_failure_effects (o : RpcOutcomes) (s : TesterState)
    (h : submitFails o = true) :
    (send_transaction o s).1 = none
    ∧ (send_transaction o s).2.pending = s.pending
    ∧ (send_transaction o s).2.metrics.txSentTotal = s.metrics.txSentTotal + 1
    ∧ (send_transaction o s).2.metrics.txFailedTotal = s.metrics.txFailedTotal + 1
    ∧ (send_transaction o s).2.metrics.txSuccessTotal = s.metrics.txSuccessTotal
    ∧ (send_transaction o s).2.metrics.txPending = s.metrics.txPending := by
  obtain ⟨bp, nn, gp, ci, so, ro, su⟩ := o
  simp only [submitFails] at h
  cases bp <;> cases nn <;> cases gp <;> cases ci <;> cases so <;> cases ro
    <;> cases su <;>
    simp_all [send_transaction, check_connection, sendExceptPath]

/-- A submission attempt that fails at the very first step (the
connectivity probe): concrete outcomes for the C3 witness. -/
def exampleFailedOutcomes : RpcOutcomes :=
  { blockProbe := none, nonce := some 5, gasPrice := some 9,
    chainId := some 1, signOk := true, rawOk := true, submit := some "ab" }

/-- A tester state with one pending transaction `"aa"`, for exercising
the submitter and tracker at concrete inputs. -/
def examplePendingState : TesterState :=
  { metrics := { exampleMetrics with txPending := 1 }, pending := ["aa"] }

/-- Witness for C3 at a concrete failing outcome and nonempty state. -/
theorem C3_submit_failure_effects_witness :
    (send_transaction exampleFailedOutcomes examplePendingState).1 = none
    ∧ (send_transaction exampleFailedOutcomes examplePendingState).2.pending
        = examplePendingState.pending
    ∧ (send_transaction exampleFailedOutcomes examplePendingState).2.metrics.txSentTotal
        = examplePendingState.metrics.txSentTotal + 1
    ∧ (send_transaction exampleFailedOutcomes examplePendingState).2.metrics.txFailedTotal
        = examplePendingState.metrics.txFailedTotal + 1
    ∧ (send_transaction exampleFailedOutcomes examplePendingState).2.metrics.txSuccessTotal
        = examplePendingState.metrics.txSuccessTotal
    ∧ (send_transaction exampleFailedOutcomes examplePendingState).2.metrics.txPending
        = examplePendingState.metrics.txPending :=
  C3_submit_failure_effects exampleFailedOutcomes examplePendingState (by decide)

/-- C1 (the code, at the claim's failing input): when
`wait_for_transaction_receipt` raises — confirmation timeout or query
error — the tracker increments the failed counter but leaves the
transaction in `pending_txs` and the `tx_pending` gauge unrefreshed: the
pending-set entry outlives its tracker, contradicting the guaranteed
cleanup the claim states for every exit path. -/
theorem C1_tracker_error_leaks_pending :
    (wait_for_receipt "aa" ReceiptOutcome.error 0 examplePendingState).pending = ["aa"]
    ∧ (wait_for_receipt "aa" ReceiptOutcome.error 0 examplePendingState).metrics.txPending = 1
    ∧ (wait_for_receipt "aa" ReceiptOutcome.error 0 examplePendingState).metrics.txFailedTotal
        = examplePendingState.metrics.txFailedTotal + 1 := by
  refine ⟨rfl, rfl, rfl⟩

/-- Counter effect of one `send_transaction` call: the sent counter
always gains exactly one; the success counter is never touched; the
failed counter gains one exactly on the `None` (failure) outcomes. -/
theorem send_transaction_counters (o : RpcOutcomes) (s : TesterState) :
    (send_transaction o s).2.metrics.txSentTotal = s.metrics.txSentTotal + 1
    ∧ (send_transaction o s).2.metrics.txSuccessTotal
        = s.metrics.txSuccessTotal
    ∧ ((send_transaction o s).1 = none →
        (send_transaction o s).2.metrics.txFailedTotal
          = s.metrics.txFailedTotal + 1)
    ∧ (∀ h, (send_transaction o s).1 = some h →
        (send_transaction o s).2.metrics.txFailedTotal
          = s.metrics.txFailedTotal) := by
  obtain ⟨bp, nn, gp, ci, so, ro, su⟩ := o
  cases bp <;> cases nn <;> cases gp <;> cases ci <;> cases so <;> cases ro
    <;> cases su <;>
    simp [send_transaction, check_connection, sendExceptPath]

/-- The pending-set cleanup changes no counter: it touches only the
pending list and the pending gauge. -/
theorem removeFromPending_counters (h : String) (s : TesterState) :
    (removeFromPending h s).metrics.txSuccessTotal = s.metrics.txSuccessTotal
    ∧ (removeFromPending h s).metrics.txFailedTotal = s.metrics.txFailedTotal
    ∧ (removeFromPending h s).metrics.txSentTotal = s.metrics.txSentTotal := by
  unfold removeFromPending
  split <;> simp

/-- Counter effect of one tracker resolution: whatever the receipt
outcome, exactly one of the success and failed counters gains one, and
the sent counter is untouched. -/
theorem wait_for_receipt_counters (h : String) (r : ReceiptOutcome)
    (d : Rat) (s : TesterState) :
    (wait_for_receipt h r d s).metrics.txSuccessTotal
        + (wait_for_receipt h r d s).metrics.txFailedTotal
      = s.metrics.txSuccessTotal + s.metrics.txFailedTotal + 1
    ∧ (wait_for_receipt h r d s).metrics.txSentTotal
        = s.metrics.txSentTotal := by
  cases r with
  | receipt status =>
    by_cases h1 : status = 1
    · simp only [wait_for_receipt, h1, if_pos]
      obtain ⟨ha, hb, hc⟩ := removeFromPending_counters h
        { s with metrics :=
          { s.metrics with
            txSuccessTotal := s.metrics.txSuccessTotal + 1,
            txDuration := d :: s.metrics.txDuration } }
      simp only [ha, hb, hc]
      simp
      omega
    · simp only [wait_for_receipt, h1, if_neg, if_false]
      obtain ⟨ha, hb, hc⟩ := removeFromPending_counters h
        { s with metrics :=
          { s.metrics with txFailedTotal := s.metrics.txFailedTotal + 1 } }
      simp only [ha, hb, hc]
      simp
      omega
  | error => simp [wait_for_receipt]; omega

/-- One submission attempt tracked to resolution increments the sent
counter by exactly one and the sum of the success and failed counters by
exactly one, whatever the RPC and receipt outcomes. -/
theorem stepAttempt_counters (s : TesterState)
    (a : RpcOutcomes × ReceiptOutcome × Rat) :
    (stepAttempt s a).metrics.txSentTotal = s.metrics.txSentTotal + 1
    ∧ (stepAttempt s a).metrics.txSuccessTotal
        + (stepAttempt s a).metrics.txFailedTotal
      = s.metrics.txSuccessTotal + s.metrics.txFailedTotal + 1 := by
  obtain ⟨o, r, d⟩ := a
  have hA := send_transaction_counters o s
  rcases hsend : send_transaction o s with ⟨res, s'⟩
  simp only [hsend] at hA
  cases res with
  | none =>
    simp only [stepAttempt, hsend]
    refine ⟨hA.1, ?_⟩
    have hfail := hA.2.2.1 rfl
    have hsucc := hA.2.1
    omega
  | some hh =>
    simp only [stepAttempt, hsend]
    have hB := wait_for_receipt_counters hh r d s'
    have hfail := hA.2.2.2 hh rfl
    have hsucc := hA.2.1
    refine ⟨?_, ?_⟩
    · rw [hB.2, hA.1]
    · rw [hB.1]; omega

/-- Counters over a list of attempts, from any starting state. -/
theorem runAttempts_counters (l : List (RpcOutcomes × ReceiptOutcome × Rat)) :
    ∀ s : TesterState,
      (runAttempts s l).metrics.txSentTotal = s.metrics.txSentTotal + l.length
      ∧ (runAttempts s l).metrics.txSuccessTotal
            + (runAttempts s l).metrics.txFailedTotal
          = s.metrics.txSuccessTotal + s.metrics.txFailedTotal + l.length := by
  induction l with
  | nil => intro s; simp [runAttempts]
  | cons a rest ih =>
    intro s
    have hstep := stepAttempt_counters s a
    have htail := ih (stepAttempt s a)
    simp only [runAttempts, List.foldl_cons, List.length_cons] at htail ⊢
    constructor
    · rw [htail.1, hstep.1]; omega
    · rw [htail.2, hstep.2]; omega

/-- C4: counter consistency.  Over any run in which every spawned
tracker has resolved, each submission attempt contributed exactly one to
the sent counter and exactly one to the success-or-failed total, so
`success_count + failed_count = sent_count` and the sent counter equals
the number of attempts. -/
theorem C4_counter_consistency
    (l : List (RpcOutcomes × ReceiptOutcome × Rat)) :
    (runAttempts initialState l).metrics.txSuccessTotal
        + (runAttempts initialState l).metrics.txFailedTotal
      = (runAttempts initialState l).metrics.txSentTotal
    ∧ (runAttempts initialState l).metrics.txSentTotal = l.length := by
  have h1 := (runAttempts_counters l initialState).1
  have h2 := (runAttempts_counters l initialState).2
  have e1 : initialState.metrics.txSentTotal = 0 := rfl
  have e2 : initialState.metrics.txSuccessTotal = 0 := rfl
  have e3 : initialState.metrics.txFailedTotal = 0 := rfl
  constructor <;> omega

/-- The probe loop reports exhaustion exactly when no attempt in its
window succeeds. -/
theorem wait_loop_none_iff (probe : Nat → ProbeOutcome) (n : Nat) :
    ∀ remaining attempt s,
      (wait_loop probe n attempt remaining s).1 = none ↔
        ∀ j, attempt ≤ j → j < attempt + remaining → probe j ≠ .ok := by
  intro remaining
  induction remaining with
  | zero =>
    intro attempt s
    simp only [wait_loop]
    constructor
    · intro _ j hj1 hj2; omega
    · intro _; trivial
  | succ r ih =>
    intro attempt s
    simp only [wait_loop]
    cases hp : probe attempt with
    | ok =>
      simp only
      constructor
      · intro hcontra; exact absurd hcontra (by simp)
      · intro hall
        exact absurd hp (hall attempt (le_refl attempt) (by omega))
    | notConnected =>
      by_cases hc : attempt < n - 1
      · rw [if_pos hc, ih (attempt + 1) (s + 1)]
        constructor
        · intro hall j hj1 hj2
          rcases Nat.eq_or_lt_of_le hj1 with hje | hjl
          · rw [hje] at hp; simp [hp]
          · exact hall j hjl (by omega)
        · intro hall j hj1 hj2; exact hall j (by omega) (by omega)
      · rw [if_neg hc, ih (attempt + 1) s]
        constructor
        · intro hall j hj1 hj2
          rcases Nat.eq_or_lt_of_le hj1 with hje | hjl
          · rw [hje] at hp; simp [hp]
          · exact hall j hjl (by omega)
        · intro hall j hj1 hj2; exact hall j (by omega) (by omega)
    | err =>
      by_cases hc : attempt < n - 1
      · rw [if_pos hc, ih (attempt + 1) (s + 1)]
        constructor
        · intro hall j hj1 hj2
          rcases Nat.eq_or_lt_of_le hj1 with hje | hjl
          · rw [hje] at hp; simp [hp]
          · exact hall j hjl (by omega)
        · intro hall j hj1 hj2; exact hall j (by omega) (by omega)
      · rw [if_neg hc, ih (attempt + 1) s]
        constructor
        · intro hall j hj1 hj2
          rcases Nat.eq_or_lt_of_le hj1 with hje | hjl
          · rw [hje] at hp; simp [hp]
          · exact hall j hjl (by omega)
        · intro hall j hj1 hj2; exact hall j (by omega) (by omega)

/-- When the probe loop returns, it returns at the first successful
attempt of its window, having slept once per failed attempt before it. -/
theorem wait_loop_some (probe : Nat → ProbeOutcome) (n : Nat) :
    ∀ remaining attempt s i t,
      attempt + remaining = n →
      wait_loop probe n attempt remaining s = (some i, t) →
      attempt ≤ i ∧ i < n ∧ probe i = .ok
        ∧ (∀ j, attempt ≤ j → j < i → probe j ≠ .ok)
        ∧ t = s + (i - attempt) := by
  intro remaining
  induction remaining with
  | zero =>
    intro attempt s i t _ heq
    exact absurd heq (by simp [wait_loop])
  | succ r ih =>
    intro attempt s i t hinv heq
    rw [wait_loop] at heq
    cases hp : probe attempt with
    | ok =>
      rw [hp] at heq
      simp only [Prod.mk.injEq, Option.some.injEq] at heq
      obtain ⟨hi, ht⟩ := heq
      subst hi; subst ht
      refine ⟨le_refl _, by omega, hp, ?_, by omega⟩
      intro j hj1 hj2; omega
    | notConnected =>
      rw [hp] at heq
      by_cases hc : attempt < n - 1
      · rw [if_pos hc] at heq
        obtain ⟨h1, h2, h3, h4, h5⟩ := ih (attempt + 1) (s + 1) i t (by omega) heq
        refine ⟨by omega, h2, h3, ?_, by omega⟩
        intro j hj1 hj2
        rcases Nat.eq_or_lt_of_le hj1 with hje | hjl
        · rw [hje] at hp; simp [hp]
        · exact h4 j hjl hj2
      · rw [if_neg hc] at heq
        have hr : r = 0 := by omega
        subst hr
        exact absurd heq (by simp [wait_loop])
    | err =>
      rw [hp] at heq
      by_cases hc : attempt < n - 1
      · rw [if_pos hc] at heq
        obtain ⟨h1, h2, h3, h4, h5⟩ := ih (attempt + 1) (s + 1) i t (by omega) heq
        refine ⟨by omega, h2, h3, ?_, by omega⟩
        intro j hj1 hj2
        rcases Nat.eq_or_lt_of_le hj1 with hje | hjl
        · rw [hje] at hp; simp [hp]
        · exact h4 j hjl hj2
      · rw [if_neg hc] at heq
        have hr : r = 0 := by omega
        subst hr
        exact absurd heq (by simp [wait_loop])

/-- C9: `_wait_for_connection` with an attempt budget of `max_retries`
fails (raises its connection-unavailable exception) exactly when no
attempt within the budget succeeds; otherwise it returns at the first
successful attempt `i`, having performed `i` fixed-delay sleeps (one
after each failed attempt). -/
theorem C9_wait_for_connection (probe : Nat → ProbeOutcome) (n : Nat) :
    ((wait_for_connection probe n).1 = none ↔ ∀ i, i < n → probe i ≠ .ok)
    ∧ (∀ i, (wait_for_connection probe n).1 = some i →
        i < n ∧ probe i = .ok ∧ (∀ j, j < i → probe j ≠ .ok)
          ∧ (wait_for_connection probe n).2 = i) := by
  constructor
  · rw [wait_for_connection, wait_loop_none_iff probe n n 0 0]
    constructor
    · intro hall i hi; exact hall i (by omega) (by omega)
    · intro hall j _ hj; exact hall j (by omega)
  · intro i hsome
    rcases hw : wait_loop probe n 0 n 0 with ⟨res, t⟩
    have hres : res = some i := by
      rw [wait_for_connection, hw] at hsome; exact hsome
    subst hres
    obtain ⟨h1, h2, h3, h4, h5⟩ := wait_loop_some probe n n 0 0 i t (by omega) hw
    refine ⟨h2, h3, fun j hj => h4 j (by omega) hj, ?_⟩
    rw [wait_for_connection, hw]
    omega

/-- A concrete startup probe: fails on attempts 0 and 1, succeeds on
attempt 2. -/
def exampleProbe : Nat → ProbeOutcome :=
  fun i => if i = 2 then .ok else .err

/-- Witness for C9: with the example probe and a budget of 5, the wait
returns at attempt 2 after exactly 2 sleeps. -/
theorem C9_wait_for_connection_witness :
    2 < 5 ∧ exampleProbe 2 = ProbeOutcome.ok
      ∧ (wait_for_connection exampleProbe 5).2 = 2 :=
  ⟨((C9_wait_for_connection exampleProbe 5).2 2 (by decide)).1,
    ((C9_wait_for_connection exampleProbe 5).2 2 (by decide)).2.1,
    ((C9_wait_for_connection exampleProbe 5).2 2 (by decide)).2.2.2⟩
